import Mathlib

/-!
Verification of the Kenny contact-resolution and document-linking core
(`kenny-api/contact_resolver.py`, `kenny-api/document_linker.py`,
`kenny-api/ollama_kenny.py`) against its natural-language specification.

Python strings are embedded as `List Char`, Python floats as `ℚ` (the
constants involved are exact decimals and all comparisons in the source are
robust to this reading), SQLite rows as Lean lists, and `uuid.uuid4()` as a
draw from a fresh-`Nat` counter (successive draws are distinct, which is the
only property of uuid4 the code relies on).
-/

namespace Kenny

/-! Python float arithmetic on the exact decimal constants of this code is
modelled by exact rational arithmetic. The wrappers below implement the
rational operations through `mkRat` and `Rat.blt` so that every confidence
computation evaluates by kernel reduction; they agree with the field
operations of `ℚ` (rationals carry a positive denominator). -/

def qadd (a b : ℚ) : ℚ := mkRat (a.num * b.den + b.num * a.den) (a.den * b.den)

def qmul (a b : ℚ) : ℚ := mkRat (a.num * b.num) (a.den * b.den)

/-- True division of a rational by a natural count (Python `sum / len`). -/
def qdivNat (a : ℚ) (n : Nat) : ℚ := mkRat a.num (a.den * n)

/-- Python `a < b` on these rationals. -/
def qlt (a b : ℚ) : Bool := Rat.blt a b

/-- Python `max(a, b)`. -/
def qmax (a b : ℚ) : ℚ := if qlt a b then b else a

/-- Python `min(a, b)`. -/
def qmin (a b : ℚ) : ℚ := if qlt b a then b else a

/-- Python `str.lower()` (ASCII, as used on the names/emails here). -/
def toLowerL (s : List Char) : List Char := s.map Char.toLower

/-- Python `str.strip()`: trim whitespace at both ends. -/
def trimL (s : List Char) : List Char :=
  ((s.dropWhile Char.isWhitespace).reverse.dropWhile Char.isWhitespace).reverse

/-- Python `haystack.startswith(pre)`, here `beginsWith pre haystack`. -/
def beginsWith : List Char → List Char → Bool
  | [], _ => true
  | _ :: _, [] => false
  | a :: as, b :: bs => a = b && beginsWith as bs

/-- Python `needle in haystack` substring test. -/
def containsSub (needle : List Char) : List Char → Bool
  | [] => beginsWith needle []
  | c :: rest => beginsWith needle (c :: rest) || containsSub needle rest

/-- Python `s.replace(pat, '')` for a pattern, removing every occurrence
left to right (the source only uses non-empty literal patterns). The fuel
argument only serves structural termination: every step consumes at least
one character, so `fuel = s.length` never runs out. -/
def replaceDropAux (pat : List Char) : Nat → List Char → List Char
  | _, [] => []
  | 0, s => s
  | fuel + 1, c :: rest =>
    if pat ≠ [] ∧ beginsWith pat (c :: rest) then
      replaceDropAux pat fuel (rest.drop (pat.length - 1))
    else
      c :: replaceDropAux pat fuel rest

def replaceDrop (pat s : List Char) : List Char := replaceDropAux pat s.length s

/-- Python `str.split()` / `re.split(r'\s+', ·)` with empty parts dropped. -/
def splitWsAux : List Char → List Char → List (List Char)
  | [], acc => if acc = [] then [] else [acc.reverse]
  | c :: rest, acc =>
    if c.isWhitespace then
      if acc = [] then splitWsAux rest [] else acc.reverse :: splitWsAux rest []
    else
      splitWsAux rest (c :: acc)

def splitWs (s : List Char) : List (List Char) := splitWsAux s []

/-- Python truthiness of an optional string (SQL NULL ↦ `none`). -/
def pyTruthy : Option (List Char) → Bool
  | none => false
  | some s => !s.isEmpty

/-- The string an optional field contributes once known truthy. -/
def optStr (o : Option (List Char)) : List Char := o.getD []

/-- SQL `SELECT DISTINCT` over strings, keeping first occurrences. -/
def distinctAux (seen : List (List Char)) : List (List Char) → List (List Char)
  | [] => []
  | s :: rest =>
    if s ∈ seen then distinctAux seen rest else s :: distinctAux (s :: seen) rest

def distinctL (l : List (List Char)) : List (List Char) := distinctAux [] l

/-- Python stable `sorted(key = score, reverse = True)` on (id, score) pairs:
insertion sort that keeps earlier elements first among equal scores. -/
def insertDesc (x : Nat × ℚ) : List (Nat × ℚ) → List (Nat × ℚ)
  | [] => [x]
  | y :: ys => if x.2 > y.2 then x :: y :: ys else y :: insertDesc x ys

def sortPairsDesc (l : List (Nat × ℚ)) : List (Nat × ℚ) :=
  l.foldl (fun acc x => insertDesc x acc) []

/-! ## Identity normalizer (`contact_resolver.normalize_phone` and friends) -/

/-- Python `re.sub(r'[^\d+]', '', phone)`: keep digits and every `'+'`. -/
def phoneClean (phone : List Char) : List Char :=
  phone.filter (fun c => c.isDigit || c = '+')

/-- The Australian prefix-stripping chain of `normalize_phone`. -/
def phoneStripCC (cleaned : List Char) : List Char :=
  if beginsWith "+61".data cleaned then cleaned.drop 3
  else if beginsWith "61".data cleaned ∧ cleaned.length > 10 then cleaned.drop 2
  else if beginsWith "0".data cleaned ∧ cleaned.length = 10 then cleaned.drop 1
  else cleaned

/-- Python `cleaned[-9:] if len(cleaned) >= 9 else cleaned`. -/
def phoneLast9 (cleaned : List Char) : List Char :=
  if 9 ≤ cleaned.length then cleaned.drop (cleaned.length - 9) else cleaned

/-- Embeds `ContactResolver.normalize_phone` (contact_resolver.py lines 57-73). -/
def normalize_phone (phone : List Char) : List Char :=
  if phone = [] then [] else phoneLast9 (phoneStripCC (phoneClean phone))

/-- Embeds `ContactResolver.normalize_email` (contact_resolver.py lines 75-79). -/
def normalize_email (email : List Char) : List Char :=
  if email = [] then [] else trimL (toLowerL email)

/-- Embeds `DocumentLinker.normalize_phone_for_lookup` (document_linker.py lines
51-65): digits only (`re.sub(r'\D','',·)`), no `'+61'` branch. -/
def normalize_phone_for_lookup (phone : List Char) : List Char :=
  if phone = [] then [] else
  let cleaned := phone.filter Char.isDigit
  let c2 :=
    if beginsWith "61".data cleaned ∧ cleaned.length > 10 then cleaned.drop 2
    else if beginsWith "0".data cleaned ∧ cleaned.length = 10 then cleaned.drop 1
    else cleaned
  if 9 ≤ c2.length then c2.drop (c2.length - 9) else c2

/-- Embeds `ContactResolver.extract_whatsapp_identifier` (lines 81-91). -/
def extract_whatsapp_identifier (chat_jid : List Char) : Option (List Char) :=
  if chat_jid = [] then none
  else if containsSub "@s.whatsapp.net".data chat_jid then
    some (normalize_phone (replaceDrop "@s.whatsapp.net".data chat_jid))
  else none

/-- Embeds `DocumentLinker.extract_whatsapp_phone` (document_linker.py lines 67-73). -/
def extract_whatsapp_phone (chat_jid : List Char) : Option (List Char) :=
  if chat_jid = [] ∨ ¬ containsSub "@s.whatsapp.net".data chat_jid then none
  else some (normalize_phone_for_lookup (replaceDrop "@s.whatsapp.net".data chat_jid))

/-! ### Facts about `normalize_phone` used for claim C3 -/

lemma phoneStripCC_subset (l : List Char) : phoneStripCC l ⊆ l := by
  unfold phoneStripCC
  split
  · exact List.drop_subset _ _
  · split
    · exact List.drop_subset _ _
    · split
      · exact List.drop_subset _ _
      · exact List.Subset.refl _

lemma phoneLast9_subset (l : List Char) : phoneLast9 l ⊆ l := by
  unfold phoneLast9
  split
  · exact List.drop_subset _ _
  · exact List.Subset.refl _

lemma normalize_phone_chars (p : List Char) :
    ∀ c ∈ normalize_phone p, (c.isDigit || c = '+') = true := by
  intro c hc
  unfold normalize_phone at hc
  split at hc
  · simp at hc
  · have h1 : c ∈ phoneStripCC (phoneClean p) :=
      phoneLast9_subset _ hc
    have h2 : c ∈ phoneClean p := phoneStripCC_subset _ h1
    unfold phoneClean at h2
    exact (List.mem_filter.mp h2).2

lemma normalize_phone_len (p : List Char) : (normalize_phone p).length ≤ 9 := by
  unfold normalize_phone
  split
  · simp
  · unfold phoneLast9
    split
    · simp only [List.length_drop]; omega
    · omega

/-- Auxiliary: a second pass of `normalize_phone` is the identity whenever the
first pass did not leave a `'+61'` prefix standing. -/
theorem normalize_phone_second_pass (p : List Char)
    (h : beginsWith "+61".data (normalize_phone p) = false) :
    normalize_phone (normalize_phone p) = normalize_phone p := by
  have hall := normalize_phone_chars p
  have hlen := normalize_phone_len p
  by_cases ho : normalize_phone p = []
  · rw [ho]; rfl
  · generalize hgen : normalize_phone p = o at *
    unfold normalize_phone
    rw [if_neg ho]
    have hclean : phoneClean o = o := by
      unfold phoneClean
      exact List.filter_eq_self.mpr hall
    rw [hclean]
    have hstrip : phoneStripCC o = o := by
      unfold phoneStripCC
      rw [if_neg (by simp [h]), if_neg (by rintro ⟨-, h2⟩; omega),
        if_neg (by rintro ⟨-, h3⟩; omega)]
    rw [hstrip]
    unfold phoneLast9
    split
    · have : o.length = 9 := by omega
      simp [this]
    · rfl

/-- C3 counterexample: for the input `"5+61412345"` (the character-keeping
regex retains every `'+'`, so the last-9 window can expose a fresh `'+61'`
prefix), a second `normalize_phone` pass changes the value again. -/
theorem c3_normalize_phone_not_idempotent :
    normalize_phone (normalize_phone "5+61412345".data) ≠
      normalize_phone "5+61412345".data := by decide

/-- C3 (amended): `normalize_phone` is idempotent on every input whose
normalized form does not itself start with `"+61"` (the only branch a second
pass can still take); the claim as stated over all strings fails. -/
theorem c3_normalize_phone_idempotent_unless_plus61 (p : List Char)
    (h : beginsWith "+61".data (normalize_phone p) = false) :
    normalize_phone (normalize_phone p) = normalize_phone p :=
  normalize_phone_second_pass p h

theorem c3_normalize_phone_idempotent_witness :
    beginsWith "+61".data (normalize_phone "0412 345 678".data) = false ∧
      normalize_phone (normalize_phone "0412 345 678".data) =
        normalize_phone "0412 345 678".data :=
  ⟨by decide, c3_normalize_phone_idempotent_unless_plus61 _ (by decide)⟩

/-! ## Fuzzy name matcher (`ollama_kenny.fuzzy_match_name`, lines 85-232)

The embedding models the configuration in which the optional third-party
imports fail (`LEVENSHTEIN_AVAILABLE = PHONETICS_AVAILABLE = False`), the
fallback the source defines itself: those channels then contribute `0.0`. -/

/-- The fixed nickname table of `fuzzy_match_name` (lines 145-162). -/
def nickname_mapping : List (List Char × List (List Char)) :=
  [("mike".data, ["michael".data]), ("mick".data, ["michael".data]),
   ("mickey".data, ["michael".data]),
   ("dave".data, ["david".data]), ("davey".data, ["david".data]),
   ("bob".data, ["robert".data]), ("bobby".data, ["robert".data]),
   ("rob".data, ["robert".data]), ("robbie".data, ["robert".data]),
   ("bill".data, ["william".data]), ("billy".data, ["william".data]),
   ("will".data, ["william".data]), ("willie".data, ["william".data]),
   ("jim".data, ["james".data]), ("jimmy".data, ["james".data]),
   ("jamie".data, ["james".data]),
   ("john".data, ["jonathan".data]), ("johnny".data, ["jonathan".data]),
   ("chris".data, ["christopher".data]), ("christie".data, ["christopher".data]),
   ("katie".data, ["katherine".data]), ("kate".data, ["katherine".data]),
   ("kathy".data, ["katherine".data]),
   ("beth".data, ["elizabeth".data]), ("liz".data, ["elizabeth".data]),
   ("lizzie".data, ["elizabeth".data]), ("betty".data, ["elizabeth".data]),
   ("sue".data, ["susan".data]), ("susie".data, ["susan".data]),
   ("tom".data, ["thomas".data]), ("tommy".data, ["thomas".data]),
   ("dan".data, ["daniel".data]), ("danny".data, ["daniel".data]),
   ("matt".data, ["matthew".data]), ("matty".data, ["matthew".data]),
   ("andy".data, ["andrew".data]), ("drew".data, ["andrew".data]),
   ("joe".data, ["joseph".data]), ("joey".data, ["joseph".data]),
   ("sam".data, ["samuel".data]), ("sammy".data, ["samuel".data])]

def lookupNick (qp : List Char) : Option (List (List Char)) :=
  (nickname_mapping.find? (fun e => e.1 = qp)).map (·.2)

/-- Per-query-token best score of the component channel (lines 120-137):
`1.0` on exact token equality (with `break`), else `0.8` when one token
contains the other; the edit-distance fallback is unavailable here. -/
def bestComponent (qp : List Char) (name_parts : List (List Char)) : ℚ :=
  if name_parts.any (fun np => np = qp) then 1
  else if name_parts.any (fun np => containsSub qp np || containsSub np qp) then
    mkRat 8 10
  else 0

/-- Embeds `fuzzy_match_name` (ollama_kenny.py lines 85-232). -/
def fuzzy_match_name (query full_name : List Char) : ℚ :=
  if query = [] ∨ full_name = [] then 0 else
  let q := trimL (toLowerL query)
  let f := trimL (toLowerL full_name)
  if q = f then 1 else
  let query_parts := splitWs q
  let name_parts := splitWs f
  if query_parts = [] ∨ name_parts = [] then 0 else
  let substring_score : ℚ :=
    if containsSub q f then mkRat 8 10
    else if query_parts.any (fun qp => containsSub qp f) then mkRat 6 10
    else 0
  let component_scores := query_parts.map (fun qp => bestComponent qp name_parts)
  let component_score : ℚ :=
    if component_scores = [] then 0
    else qdivNat (component_scores.foldl qadd 0) component_scores.length
  let phonetic_score : ℚ :=
    if query_parts.any (fun qp =>
        match lookupNick qp with
        | some fulls => fulls.any (fun ff => containsSub ff f)
        | none => false) then mkRat 85 100
    else 0
  let positional_bonus : ℚ :=
    if beginsWith q f then mkRat 2 10
    else if query_parts.any (fun qp => name_parts.any (fun np => beginsWith qp np))
      then mkRat 1 10
    else 0
  let levenshtein_score : ℚ := 0
  let final :=
    qmax (qmax substring_score (qadd component_score positional_bonus))
      (qmax phonetic_score levenshtein_score)
  let final := if qlt (mkRat 4 10) final then qmin 1 (qadd final (mkRat 1 10)) else final
  qmin final 1

/-- C2 counterexample: the score is `1.0` for `("michael", "michael johnson")`
(exact-component score `1.0` plus positional bonus `0.2`, then the `+0.1`
boost and the clamp), although the lowercased/trimmed strings differ — so
"returns 1.0 only if the normalized strings are equal" is false. -/
theorem c2_fuzzy_one_counterexample :
    fuzzy_match_name "michael".data "michael johnson".data = 1 ∧
      trimL (toLowerL "michael".data) ≠ trimL (toLowerL "michael johnson".data) := by
  constructor
  · decide
  · decide

/-- C2 (amended): for non-empty inputs, equality of the lowercased/trimmed
strings is sufficient for a score of exactly `1.0`; it is not necessary
(see the counterexample). -/
theorem c2_fuzzy_one_of_normalized_eq (query full_name : List Char)
    (hq : query ≠ []) (hf : full_name ≠ [])
    (heq : trimL (toLowerL query) = trimL (toLowerL full_name)) :
    fuzzy_match_name query full_name = 1 := by
  unfold fuzzy_match_name
  rw [if_neg (by simp [hq, hf]), if_pos heq]

theorem c2_fuzzy_one_of_normalized_eq_witness :
    ("Mike ".data ≠ ([] : List Char) ∧ "mike".data ≠ ([] : List Char) ∧
        trimL (toLowerL "Mike ".data) = trimL (toLowerL "mike".data)) ∧
      fuzzy_match_name "Mike ".data "mike".data = 1 :=
  ⟨⟨by decide, by decide, by decide⟩,
    c2_fuzzy_one_of_normalized_eq _ _ (by decide) (by decide) (by decide)⟩

/-- C8: the nickname channel scores `("Mike", "Michael Johnson")` at `0.85`,
boosted to `0.95 ≥ 0.8`, while `("Zzqx", "Michael Johnson")` fires no
channel and scores `0 < 0.3`. -/
theorem c8_fuzzy_nickname_vs_no_channel :
    fuzzy_match_name "Mike".data "Michael Johnson".data ≥ mkRat 8 10 ∧
      fuzzy_match_name "Zzqx".data "Michael Johnson".data < mkRat 3 10 := by
  constructor
  · decide
  · decide

/-! ## Contact resolver (`contact_resolver.py`)

`uuid.uuid4()` is modelled as a draw from a `Nat` counter threaded through
the run: successive draws are distinct, the only property the code uses.
The two SQLite stores are modelled as lists of rows; `json.loads` plus
`metadata.get('chat_jid', '')` is an explicit parameter
`parse : List Char → Option (List Char)` (`none` = `JSONDecodeError`,
skipped), and `difflib.SequenceMatcher.ratio` is an explicit parameter
`ratio` (only reached on same-typed phone/email identities with unequal
values). -/

structure Identity where
  type : List Char
  value : List Char
  source : List Char
  confidence : ℚ
deriving DecidableEq

structure Contact where
  kenny_contact_id : Nat
  display_name : List Char
  identities : List Identity
  confidence_score : ℚ
deriving DecidableEq

/-- One row of the `contacts` table of kenny.db (`None` = SQL NULL). -/
structure AddressBookRow where
  contact_id : Option (List Char)
  first_name : Option (List Char)
  last_name : Option (List Char)
  full_name : Option (List Char)
  primary_phone : Option (List Char)
  secondary_phone : Option (List Char)
  tertiary_phone : Option (List Char)
  primary_email : Option (List Char)
  secondary_email : Option (List Char)
  company : Option (List Char)
  job_title : Option (List Char)
deriving DecidableEq

/-- The `WHERE` clause of `load_contacts_from_kenny_db` (lines 105-115). -/
def rowHasSignal (r : AddressBookRow) : Bool :=
  pyTruthy r.primary_phone || pyTruthy r.primary_email ||
    pyTruthy r.first_name || pyTruthy r.full_name

/-- Display-name construction of `load_contacts_from_kenny_db`
(lines 121-128). -/
def rowDisplayName (r : AddressBookRow) : List Char :=
  if pyTruthy r.full_name ∧ trimL (optStr r.full_name) ≠ [] then
    trimL (optStr r.full_name)
  else if pyTruthy r.first_name then
    optStr r.first_name ++
      (if pyTruthy r.last_name then ' ' :: optStr r.last_name else [])
  else if pyTruthy r.contact_id then "Contact ".data ++ optStr r.contact_id
  else "Unknown Contact".data

/-- Python `str(contact_id)` where `contact_id` may be `None`. -/
def rowIdStr (r : AddressBookRow) : List Char :=
  match r.contact_id with
  | some s => s
  | none => "None".data

/-- Identity list of one loaded contact (lines 130-159): the contact-record
identity at confidence 1.0, one phone identity per truthy phone field at
0.95, one email identity per truthy email field at 0.95. -/
def rowIdentities (r : AddressBookRow) : List Identity :=
  ⟨"contact_record".data, rowIdStr r, "contacts_app".data, 1⟩ ::
    ([r.primary_phone, r.secondary_phone, r.tertiary_phone].filterMap (fun p =>
      match p with
      | some s =>
        if s ≠ [] ∧ trimL s ≠ [] then
          some ⟨"phone".data, normalize_phone s, "contacts_app".data, mkRat 95 100⟩
        else none
      | none => none) ++
    [r.primary_email, r.secondary_email].filterMap (fun e =>
      match e with
      | some s =>
        if s ≠ [] ∧ trimL s ≠ [] then
          some ⟨"email".data, normalize_email s, "contacts_app".data, mkRat 95 100⟩
        else none
      | none => none))

/-- Embeds `load_contacts_from_kenny_db` (lines 99-169): one contact per filtered
row, with a fresh `kenny_contact_id` drawn per contact. -/
def load_contacts_from_kenny_db (rows : List AddressBookRow) (counter : Nat) :
    List Contact × Nat :=
  (rows.filter rowHasSignal).foldl
    (fun st r =>
      (st.1 ++ [{ kenny_contact_id := st.2, display_name := rowDisplayName r,
                  identities := rowIdentities r, confidence_score := 1 }],
        st.2 + 1))
    ([], counter)

/-- Embeds `extract_identities_from_documents` (lines 171-215): over the DISTINCT
non-empty metadata blobs of WhatsApp documents, a parsed individual-chat JID
yields a phone identity at 0.8 and a JID identity at 0.9. -/
def extract_identities_from_documents
    (parse : List Char → Option (List Char)) (docs : List (List Char)) :
    List Identity :=
  ((distinctL (docs.filter (· ≠ []))).map (fun m =>
    match parse m with
    | none => []
    | some chat_jid =>
      match extract_whatsapp_identifier chat_jid with
      | some whatsapp_phone =>
        if whatsapp_phone ≠ [] then
          [⟨"phone".data, whatsapp_phone, "whatsapp_bridge".data, mkRat 8 10⟩,
           ⟨"whatsapp_jid".data, chat_jid, "whatsapp_bridge".data, mkRat 9 10⟩]
        else []
      | none => [])).flatten

/-- Embeds `similarity_score` (lines 93-97) on top of the injected
`SequenceMatcher.ratio`. -/
def similarity_score (ratio : List Char → List Char → ℚ) (s1 s2 : List Char) : ℚ :=
  if s1 = [] ∨ s2 = [] then 0 else ratio (toLowerL s1) (toLowerL s2)

/-- The per-contact confidence loop of `find_matching_contacts`
(lines 221-234). -/
def contactMatchConf (ratio : List Char → List Char → ℚ) (i : Identity)
    (c : Contact) : ℚ :=
  c.identities.foldl
    (fun m ei =>
      if ei.type = i.type then
        if ei.value = i.value then qmax m (mkRat 95 100)
        else if i.type = "phone".data ∨ i.type = "email".data then
          let similarity := similarity_score ratio ei.value i.value
          if qlt (mkRat 8 10) similarity then qmax m (qmul similarity (mkRat 7 10))
          else m
        else m
      else m)
    0

/-- Embeds `find_matching_contacts` (lines 217-238), returning positions into the
contact list (the embedding of the source's object references) with their
match confidence, stably sorted by descending confidence. -/
def find_matching_contacts (ratio : List Char → List Char → ℚ) (i : Identity)
    (existing_contacts : List Contact) : List (Nat × ℚ) :=
  sortPairsDesc
    (((List.range existing_contacts.length).zip existing_contacts).filterMap
      (fun p =>
        let mc := contactMatchConf ratio i p.2
        if qlt (mkRat 5 10) mc then some (p.1, mc) else none))

/-- Python `best_match.identities.append(identity)`: mutate the matched contact. -/
def appendIdentityAt : List Contact → Nat → Identity → List Contact
  | [], _, _ => []
  | c :: cs, 0, i => { c with identities := c.identities ++ [i] } :: cs
  | c :: cs, n + 1, i => c :: appendIdentityAt cs n i

/-- Step 4 of `resolve_and_initialize` (lines 300-312), one identity:
append to the best match when its confidence exceeds 0.7, otherwise keep
the identity as unmatched. -/
def matchStep (ratio : List Char → List Char → ℚ)
    (st : List Contact × List Identity) (i : Identity) :
    List Contact × List Identity :=
  match find_matching_contacts ratio i st.1 with
  | (idx, confidence) :: _ =>
    if qlt (mkRat 7 10) confidence then (appendIdentityAt st.1 idx i, st.2)
    else (st.1, st.2 ++ [i])
  | [] => (st.1, st.2 ++ [i])

def matchLoop (ratio : List Char → List Char → ℚ) (contacts : List Contact)
    (ids : List Identity) : List Contact × List Identity :=
  ids.foldl (matchStep ratio) (contacts, [])

/-- Step 5 of `resolve_and_initialize` (lines 317-327): unmatched identities
of confidence above 0.8 and of phone/email type become fresh contacts. -/
def synthesize (st : List Contact × Nat) (unmatched : List Identity) :
    List Contact × Nat :=
  unmatched.foldl
    (fun st i =>
      if qlt (mkRat 8 10) i.confidence ∧
          (i.type = "phone".data ∨ i.type = "email".data) then
        (st.1 ++ [{ kenny_contact_id := st.2,
                    display_name := "Unknown (".data ++ i.value ++ ")".data,
                    identities := [i], confidence_score := mkRat 6 10 }],
          st.2 + 1)
      else st)
    st

/-- Steps 4-5 of `resolve_and_initialize` on already-loaded data. -/
def resolveCore (ratio : List Char → List Char → ℚ) (contacts : List Contact)
    (ids : List Identity) (counter : Nat) : List Contact × Nat :=
  let mres := matchLoop ratio contacts ids
  synthesize (mres.1, counter) mres.2

/-- The contact-memory store: the `kenny_contacts` table keyed by
`kenny_contact_id` and the `contact_identities` table keyed by a fresh
per-row id (wall-clock timestamp columns omitted). -/
structure MemDB where
  contacts : List (Nat × List Char × ℚ)
  identities : List (Nat × Nat × Identity)
deriving DecidableEq

/-- SQLite `INSERT OR REPLACE` keyed on the first component: delete any
conflicting row, then insert. -/
def insertOrReplace {α : Type} (rows : List (Nat × α)) (key : Nat) (v : α) :
    List (Nat × α) :=
  rows.filter (fun r => r.1 ≠ key) ++ [(key, v)]

/-- Embeds `save_contacts_to_memory_db` (lines 240-280): upsert each contact row
under its (freshly drawn) id, and each identity row under a fresh row id. -/
def save_contacts_to_memory_db (db : MemDB) (counter : Nat)
    (contacts : List Contact) : MemDB × Nat :=
  contacts.foldl
    (fun st c =>
      let db := st.1
      let contactRows :=
        insertOrReplace db.contacts c.kenny_contact_id
          (c.display_name, c.confidence_score)
      let idres := c.identities.foldl
        (fun st2 i =>
          (insertOrReplace st2.1 st2.2 (c.kenny_contact_id, i), st2.2 + 1))
        (db.identities, st.2)
      (⟨contactRows, idres.1⟩, idres.2))
    (db, counter)

/-- Embeds `resolve_and_initialize` (lines 282-334): load, extract, match,
synthesize, persist. Returns the in-memory contact list plus the updated
store and id counter. -/
def resolve_and_initialize (ratio : List Char → List Char → ℚ)
    (parse : List Char → Option (List Char)) (rows : List AddressBookRow)
    (docs : List (List Char)) (db : MemDB) (counter : Nat) :
    List Contact × MemDB × Nat :=
  let loaded := load_contacts_from_kenny_db rows counter
  let document_identities := extract_identities_from_documents parse docs
  let resolved := resolveCore ratio loaded.1 document_identities loaded.2
  let saved := save_contacts_to_memory_db db resolved.2 resolved.1
  (resolved.1, saved.1, saved.2)

/-! ### Claims C1, C4, C9 about the contact resolver -/

/-- The contact fields the match loop never touches (it only appends to
identity lists). -/
def contactKey (c : Contact) : Nat × List Char × ℚ :=
  (c.kenny_contact_id, c.display_name, c.confidence_score)

lemma appendIdentityAt_key (cs : List Contact) (n : Nat) (i : Identity) :
    (appendIdentityAt cs n i).map contactKey = cs.map contactKey := by
  induction cs generalizing n with
  | nil => rfl
  | cons c cs ih =>
    cases n with
    | zero => simp [appendIdentityAt, contactKey]
    | succ n => simp [appendIdentityAt, ih]

lemma matchStep_key (ratio : List Char → List Char → ℚ)
    (st : List Contact × List Identity) (i : Identity) :
    ((matchStep ratio st i).1).map contactKey = (st.1).map contactKey := by
  unfold matchStep
  cases h : find_matching_contacts ratio i st.1 with
  | nil => rfl
  | cons hd tl =>
    obtain ⟨idx, confidence⟩ := hd
    dsimp only
    split
    · exact appendIdentityAt_key _ _ _
    · rfl

lemma foldl_matchStep_key (ratio : List Char → List Char → ℚ)
    (ids : List Identity) :
    ∀ st : List Contact × List Identity,
      ((ids.foldl (matchStep ratio) st).1).map contactKey = (st.1).map contactKey := by
  induction ids with
  | nil => intro st; rfl
  | cons i ids ih =>
    intro st
    rw [List.foldl_cons, ih (matchStep ratio st i), matchStep_key]

/-- The shape of every identity the document scan can produce. -/
def docIdentityShape (i : Identity) : Prop :=
  (i.type = "phone".data ∧ i.confidence = mkRat 8 10) ∨
    (i.type = "whatsapp_jid".data ∧ i.confidence = mkRat 9 10)

instance (i : Identity) : Decidable (docIdentityShape i) := by
  unfold docIdentityShape; infer_instance

lemma extract_identities_shape (parse : List Char → Option (List Char))
    (docs : List (List Char)) :
    ∀ i ∈ extract_identities_from_documents parse docs, docIdentityShape i := by
  intro i hi
  unfold extract_identities_from_documents at hi
  simp only [List.mem_flatten, List.mem_map] at hi
  obtain ⟨l, ⟨m, hm, rfl⟩, hil⟩ := hi
  cases hp : parse m with
  | none => rw [hp] at hil; simp at hil
  | some chat_jid =>
    rw [hp] at hil
    dsimp only at hil
    cases he : extract_whatsapp_identifier chat_jid with
    | none => rw [he] at hil; simp at hil
    | some whatsapp_phone =>
      rw [he] at hil
      dsimp only at hil
      split at hil
      · simp only [List.mem_cons, List.not_mem_nil, or_false] at hil
        rcases hil with rfl | rfl
        · exact Or.inl ⟨rfl, rfl⟩
        · exact Or.inr ⟨rfl, rfl⟩
      · simp at hil

lemma foldl_matchStep_unmatched (ratio : List Char → List Char → ℚ)
    (ids : List Identity) :
    ∀ st : List Contact × List Identity, (∀ i ∈ ids, docIdentityShape i) →
      (∀ i ∈ st.2, docIdentityShape i) →
      ∀ i ∈ (ids.foldl (matchStep ratio) st).2, docIdentityShape i := by
  induction ids with
  | nil => intro st _ hst; exact hst
  | cons i ids ih =>
    intro st hids hst
    rw [List.foldl_cons]
    refine ih _ (fun j hj => hids j (List.mem_cons_of_mem _ hj)) ?_
    intro j hj
    unfold matchStep at hj
    have hmem : j ∈ st.2 ∨ j = i := by
      cases h : find_matching_contacts ratio i st.1 with
      | nil =>
        rw [h] at hj
        rcases List.mem_append.mp hj with h' | h'
        · exact Or.inl h'
        · exact Or.inr (List.mem_singleton.mp h')
      | cons hd tl =>
        obtain ⟨idx, confidence⟩ := hd
        rw [h] at hj
        dsimp only at hj
        split at hj
        · exact Or.inl hj
        · rcases List.mem_append.mp hj with h' | h'
          · exact Or.inl h'
          · exact Or.inr (List.mem_singleton.mp h')
    rcases hmem with h' | rfl
    · exact hst j h'
    · exact hids j (List.mem_cons_self _ _)

/-- The synthesize guard (`confidence > 0.8` and type phone/email) rejects
every identity the document scan can produce, so step 5 adds nothing. -/
lemma synthesize_nop (un : List Identity) :
    ∀ st : List Contact × Nat, (∀ i ∈ un, docIdentityShape i) →
      synthesize st un = st := by
  induction un with
  | nil => intro st _; rfl
  | cons i un ih =>
    intro st h
    unfold synthesize
    rw [List.foldl_cons, if_neg]
    · exact ih st (fun j hj => h j (List.mem_cons_of_mem _ hj))
    · rcases h i (List.mem_cons_self _ _) with ⟨ht, hc⟩ | ⟨ht, _⟩
      · rintro ⟨hlt, -⟩
        rw [hc] at hlt
        exact absurd hlt (by decide)
      · rintro ⟨-, hty⟩
        rw [ht] at hty
        exact absurd hty (by decide)

/-- C9: every identity produced by `extract_identities_from_documents` is a
phone identity at confidence exactly 0.8 or a whatsapp_jid identity at 0.9;
the synthesize guard therefore fires for none of them, so a resolver run
creates no new contact: the resulting contact list has exactly the loaded
contacts' ids, display names and confidence scores (identities possibly
appended), and the id counter is untouched by steps 4-5. -/
theorem c9_resolver_creates_no_contact (parse : List Char → Option (List Char))
    (docs : List (List Char)) (ratio : List Char → List Char → ℚ)
    (contacts : List Contact) (counter : Nat) :
    ((extract_identities_from_documents parse docs).all
        (fun i => decide (docIdentityShape i)) = true) ∧
      (resolveCore ratio contacts (extract_identities_from_documents parse docs)
          counter).1.map contactKey = contacts.map contactKey ∧
      (resolveCore ratio contacts (extract_identities_from_documents parse docs)
          counter).2 = counter := by
  have hshape := extract_identities_shape parse docs
  have hun : ∀ i ∈ (matchLoop ratio contacts
      (extract_identities_from_documents parse docs)).2, docIdentityShape i :=
    foldl_matchStep_unmatched ratio _ (contacts, []) hshape (by simp)
  have hnop := synthesize_nop _
    ((matchLoop ratio contacts (extract_identities_from_documents parse docs)).1,
      counter) hun
  refine ⟨?_, ?_, ?_⟩
  · exact List.all_eq_true.mpr (fun i hi => decide_eq_true (hshape i hi))
  · unfold resolveCore
    rw [hnop]
    exact foldl_matchStep_key ratio _ (contacts, [])
  · unfold resolveCore
    rw [hnop]

/-! ### C4: the end-to-end scenario -/

def c4Row : AddressBookRow :=
  { contact_id := some "1".data, first_name := none, last_name := none,
    full_name := some "Courtney Elyse Lim".data,
    primary_phone := some "+61 412 345 678".data,
    secondary_phone := none, tertiary_phone := none,
    primary_email := none, secondary_email := none,
    company := none, job_title := none }

/-- The resolver's in-memory result on the C4 scenario: one address-book row
and one messaging document whose metadata carries the individual JID. -/
def c4Result : List Contact × Nat :=
  let loaded := load_contacts_from_kenny_db [c4Row] 0
  resolveCore (fun _ _ => 0) loaded.1
    (extract_identities_from_documents some
      ["61412345678@s.whatsapp.net".data])
    loaded.2

/-- C4: on the scenario of §8 the resolver appends the extracted phone
identity (both sides normalize to the 9-digit suffix "412345678") to the
existing contact — the exact-match confidence 0.95 exceeds the 0.7
acceptance threshold — and creates no duplicate contact. -/
theorem c4_end_to_end_phone_append :
    c4Result.1 =
      [{ kenny_contact_id := 0, display_name := "Courtney Elyse Lim".data,
         identities :=
           [⟨"contact_record".data, "1".data, "contacts_app".data, 1⟩,
            ⟨"phone".data, "412345678".data, "contacts_app".data, mkRat 95 100⟩,
            ⟨"phone".data, "412345678".data, "whatsapp_bridge".data, mkRat 8 10⟩],
         confidence_score := 1 }] ∧
      find_matching_contacts (fun _ _ => 0)
          ⟨"phone".data, "412345678".data, "whatsapp_bridge".data, mkRat 8 10⟩
          (load_contacts_from_kenny_db [c4Row] 0).1 = [(0, mkRat 95 100)] ∧
      qlt (mkRat 7 10) (mkRat 95 100) = true := by
  refine ⟨?_, ?_, ?_⟩
  · decide
  · decide
  · decide

/-! ### C1: rerunning the resolver on unchanged inputs -/

def c1Row : AddressBookRow :=
  { contact_id := some "1".data, first_name := none, last_name := none,
    full_name := some "A".data, primary_phone := none, secondary_phone := none,
    tertiary_phone := none, primary_email := none, secondary_email := none,
    company := none, job_title := none }

/-- One batch run against a fixed document/address-book input, carrying the
contact-memory store and the fresh-id counter across runs. -/
def c1Run (st : MemDB × Nat) : MemDB × Nat :=
  let r := resolve_and_initialize (fun _ _ => 0) (fun _ => none) [c1Row] []
    st.1 st.2
  (r.2.1, r.2.2)

/-- C1 is violated by the source: each run draws fresh contact ids
(`uuid.uuid4()` per loaded contact) before `INSERT OR REPLACE`, so the
second run on unchanged input inserts a second row instead of replacing the
first — the contact-row count goes from 1 to 2 instead of staying 1. -/
theorem c1_rerun_duplicates_contacts :
    ((c1Run (⟨[], []⟩, 0)).1.contacts.length = 1) ∧
      ((c1Run (c1Run (⟨[], []⟩, 0))).1.contacts.length = 2) := by
  constructor
  · decide
  · decide

/-! ## Document linker (`document_linker.py`)

The identity cache (`load_identity_cache`, keyed by `f"{type}:{value}"`,
where each key holds the `(kenny_contact_id, confidence)` pairs in load
order) is modelled as an association list over `(type, value)` pairs.
`extract_email_addresses` (a `re.findall` over the email regex) is an
explicit parameter of the mail linker: the mail claims are about how the
extracted addresses are used, and hold for every extraction function. -/

structure DocumentLink where
  document_id : List Char
  kenny_contact_id : Nat
  relationship_type : List Char
  confidence : ℚ
  extraction_method : List Char
deriving DecidableEq

abbrev IdentityIndex := List ((List Char × List Char) × List (Nat × ℚ))

/-- Embeds `find_contact_by_identity` (document_linker.py lines 75-78). -/
def find_contact_by_identity (idx : IdentityIndex)
    (identity_type identity_value : List Char) : List (Nat × ℚ) :=
  match idx.find? (fun e => e.1 = (identity_type, identity_value)) with
  | some e => e.2
  | none => []

/-- The known-contact-emails filter set of `link_email_documents`
(lines 187-191): the lowercased value of every cached email key. -/
def knownEmails (idx : IdentityIndex) : List (List Char) :=
  idx.filterMap (fun e =>
    if e.1.1 = "email".data then some (toLowerL e.1.2) else none)

/-- Per-document body of `link_whatsapp_documents` (lines 147-175).
`chatJid = none` models a metadata blob that fails `json.loads`. -/
def linkWhatsappDoc (idx : IdentityIndex) (doc_id : List Char)
    (chatJid : Option (List Char)) : List DocumentLink :=
  match chatJid with
  | none => []
  | some chat_jid =>
    if containsSub "@g.us".data chat_jid then []
    else
      match extract_whatsapp_phone chat_jid with
      | none => []
      | some phone =>
        if phone ≠ [] then
          match find_contact_by_identity idx "phone".data phone with
          | (kenny_id, confidence) :: _ =>
            [{ document_id := doc_id, kenny_contact_id := kenny_id,
               relationship_type := "sender".data,
               confidence := qmul confidence (mkRat 9 10),
               extraction_method := "whatsapp_jid_phone".data }]
          | [] => []
        else []

/-- Per-document body of `link_email_documents` (lines 204-246). -/
def linkEmailDoc (idx : IdentityIndex)
    (extract : List Char → List (List Char)) (doc_id : List Char)
    (title content : Option (List Char)) : List DocumentLink :=
  let known := knownEmails idx
  let sc : Option (List Char) × List (List Char) :=
    if pyTruthy title && pyTruthy content then
      let content_emails := extract (optStr content)
      let sender_email :=
        match content_emails.getLast? with
        | some e => some (toLowerL e)
        | none => none
      let title_emails := extract (optStr title)
      let recipient_emails :=
        if content_emails ≠ [] then
          (title_emails ++ content_emails.dropLast).map toLowerL
        else []
      (sender_email, recipient_emails)
    else (none, [])
  let senderLinks :=
    match sc.1 with
    | some s =>
      if s ≠ [] ∧ s ∈ known then
        match find_contact_by_identity idx "email".data s with
        | (kenny_id, confidence) :: _ =>
          [{ document_id := doc_id, kenny_contact_id := kenny_id,
             relationship_type := "sender".data,
             confidence := qmul confidence (mkRat 95 100),
             extraction_method := "email_sender".data }]
        | [] => []
      else []
    | none => []
  let recipientLinks := sc.2.filterMap (fun r =>
    if r ∈ known then
      match find_contact_by_identity idx "email".data r with
      | (kenny_id, confidence) :: _ =>
        some { document_id := doc_id, kenny_contact_id := kenny_id,
               relationship_type := "recipient".data,
               confidence := qmul confidence (mkRat 9 10),
               extraction_method := "email_recipient".data }
      | [] => none
    else none)
  senderLinks ++ recipientLinks

def business_keywords : List (List Char) :=
  ["meeting".data, "conference".data, "workshop".data, "training".data,
   "seminar".data, "webinar".data, "inspection".data]

/-- Embeds `fuzzy_match_calendar_event` (lines 87-130). `calContacts` models the
SQL join result: the `(kenny_contact_id, display_name)` of every contact
holding at least one email/phone/whatsapp_jid identity. -/
def fuzzy_match_calendar_event (calContacts : List (Nat × List Char))
    (title content : List Char) : List (Nat × ℚ) :=
  let search_text := toLowerL (title ++ ' ' :: content)
  if business_keywords.any (fun keyword => containsSub keyword search_text) then
    []
  else
    (sortPairsDesc (calContacts.filterMap (fun p =>
      if p.2 = [] then none
      else
        let name_parts := splitWs (toLowerL p.2)
        let first_name := name_parts.headD []
        if first_name.length < 3 then none
        else if containsSub first_name search_text then
          let matched_parts :=
            (name_parts.filter (fun part =>
              containsSub part search_text && 3 ≤ part.length)).length
          if 1 ≤ matched_parts then
            some (p.1,
              qmin (mkRat 7 10)
                (qadd (mkRat 5 10) (qmul (mkRat matched_parts 1) (mkRat 1 10))))
          else none
        else none))).take 2

/-- Per-document body of `link_calendar_documents` (lines 270-281): only
matches above confidence 0.5 become links. -/
def linkCalendarDoc (calContacts : List (Nat × List Char)) (doc_id : List Char)
    (title : List Char) (content : Option (List Char)) : List DocumentLink :=
  (fuzzy_match_calendar_event calContacts title (optStr content)).filterMap
    (fun m =>
      if qlt (mkRat 5 10) m.2 then
        some { document_id := doc_id, kenny_contact_id := m.1,
               relationship_type := "mentioned".data, confidence := m.2,
               extraction_method := "calendar_fuzzy_name".data }
      else none)

/-! ### Claims C5, C6, C7, C10 about the document linker -/

/-- The mail sender links as the spec words them: the last email address
appearing in the body is the sender; a link is produced when it is a known
contact email, at the matched identity confidence times 0.95. -/
def mailSenderLinksSpec (idx : IdentityIndex) (doc_id : List Char)
    (bodyEmails : List (List Char)) : List DocumentLink :=
  match bodyEmails.getLast? with
  | none => []
  | some e =>
    let s := toLowerL e
    if s ≠ [] ∧ s ∈ knownEmails idx then
      match find_contact_by_identity idx "email".data s with
      | (kenny_id, confidence) :: _ =>
        [{ document_id := doc_id, kenny_contact_id := kenny_id,
           relationship_type := "sender".data,
           confidence := qmul confidence (mkRat 95 100),
           extraction_method := "email_sender".data }]
      | [] => []
    else []

/-- The mail recipient links as the spec words them: every subject-line
address plus all-but-the-last body address, each producing a link when
known, at the matched identity confidence times 0.9. -/
def mailRecipientLinksSpec (idx : IdentityIndex) (doc_id : List Char)
    (titleEmails bodyEmails : List (List Char)) : List DocumentLink :=
  (if bodyEmails = [] then []
   else (titleEmails ++ bodyEmails.dropLast).map toLowerL).filterMap (fun r =>
    if r ∈ knownEmails idx then
      match find_contact_by_identity idx "email".data r with
      | (kenny_id, confidence) :: _ =>
        some { document_id := doc_id, kenny_contact_id := kenny_id,
               relationship_type := "recipient".data,
               confidence := qmul confidence (mkRat 9 10),
               extraction_method := "email_recipient".data }
      | [] => none
    else none)

/-- A concrete identity index holding one known contact email, used by the
concrete mail-linking statements. -/
def emailIdxExample : IdentityIndex :=
  [(("email".data, "bob@x.com".data), [(3, mkRat 95 100)])]

/-- A concrete extraction function for witnesses: the body text "body"
yields the single address "bob@x.com". -/
def w5extract (s : List Char) : List (List Char) :=
  if s = "body".data then ["bob@x.com".data] else []

/-- C5 counterexample: a Mail document with NULL title and a body whose
last (and only) extracted address is the known email "bob@x.com" produces
zero links — not the sender link the claim promises for every Mail
document. -/
theorem c5_mail_counterexample :
    linkEmailDoc emailIdxExample (fun s => [s]) "d1".data none
        (some "bob@x.com".data) = [] ∧
      toLowerL "bob@x.com".data ∈ knownEmails emailIdxExample ∧
      ((fun (s : List Char) => [s]) (optStr (some "bob@x.com".data))).getLast?
        = some "bob@x.com".data := by
  refine ⟨?_, ?_, ?_⟩
  · decide
  · decide
  · decide

/-- C5 (amended): for Mail documents whose title and content are both
non-empty, the emitted links are exactly the spec-worded sender links (last
body address, ×0.95, "email_sender") followed by the spec-worded recipient
links (subject addresses plus all-but-last body addresses, ×0.9,
"email_recipient"), for every extraction function; and — for any document —
a sole extracted address that is not a known contact email produces zero
links. Documents with an empty/NULL title or content emit nothing (C10). -/
theorem c5_mail_linking_roles (idx : IdentityIndex)
    (extract : List Char → List (List Char)) (doc_id : List Char)
    (title content : Option (List Char)) :
    (pyTruthy title = true → pyTruthy content = true →
      linkEmailDoc idx extract doc_id title content =
        mailSenderLinksSpec idx doc_id (extract (optStr content)) ++
          mailRecipientLinksSpec idx doc_id (extract (optStr title))
            (extract (optStr content))) ∧
    (∀ e : List Char,
      ((extract (optStr title) = [] ∧ extract (optStr content) = [e]) ∨
        (extract (optStr title) = [e] ∧ extract (optStr content) = [])) →
      toLowerL e ∉ knownEmails idx →
      linkEmailDoc idx extract doc_id title content = []) := by
  constructor
  · intro ht hc
    unfold linkEmailDoc mailSenderLinksSpec mailRecipientLinksSpec
    rw [ht, hc]
    cases hg : (extract (optStr content)).getLast? with
    | none =>
      have hnil : extract (optStr content) = [] :=
        List.getLast?_eq_none_iff.mp hg
      simp [hg, hnil]
    | some e =>
      have hne : extract (optStr content) ≠ [] := by
        intro hnil; rw [hnil] at hg; simp at hg
      simp [hg, hne]
  · intro e hcase hnot
    by_cases ht : pyTruthy title
    · by_cases hc : pyTruthy content
      · unfold linkEmailDoc
        rw [ht, hc]
        rcases hcase with ⟨hte, hce⟩ | ⟨hte, hce⟩
        · simp [hte, hce, hnot]
        · simp [hte, hce]
      · unfold linkEmailDoc
        simp [eq_false_of_ne_true hc]
    · unfold linkEmailDoc
      simp [eq_false_of_ne_true ht]

theorem c5_mail_linking_roles_witness :
    (pyTruthy (some "t".data) = true ∧ pyTruthy (some "body".data) = true) ∧
      linkEmailDoc emailIdxExample w5extract "d2".data (some "t".data)
          (some "body".data) =
        mailSenderLinksSpec emailIdxExample "d2".data
            (w5extract (optStr (some "body".data))) ++
          mailRecipientLinksSpec emailIdxExample "d2".data
            (w5extract (optStr (some "t".data)))
            (w5extract (optStr (some "body".data))) :=
  ⟨⟨by decide, by decide⟩,
    (c5_mail_linking_roles emailIdxExample w5extract "d2".data
      (some "t".data) (some "body".data)).1 (by decide) (by decide)⟩

/-- C10: mail linking extracts nothing unless title and content are both
truthy — a Mail document with a NULL/empty title or NULL/empty content
emits zero links, whatever addresses the other field contains. -/
theorem c10_mail_requires_title_and_content (idx : IdentityIndex)
    (extract : List Char → List (List Char)) (doc_id : List Char)
    (title content : Option (List Char))
    (h : pyTruthy title = false ∨ pyTruthy content = false) :
    linkEmailDoc idx extract doc_id title content = [] := by
  unfold linkEmailDoc
  rcases h with h | h <;> simp [h]

theorem c10_mail_requires_title_and_content_witness :
    (pyTruthy (none : Option (List Char)) = false ∨
        pyTruthy (some "bob@x.com".data) = false) ∧
      linkEmailDoc emailIdxExample (fun s => [s]) "d3".data none
        (some "bob@x.com".data) = [] :=
  ⟨by decide,
    c10_mail_requires_title_and_content emailIdxExample (fun s => [s])
      "d3".data none (some "bob@x.com".data) (by decide)⟩

/-- C6: a Calendar document whose combined title-plus-content text contains
a business keyword produces zero links, whatever contact names appear. -/
theorem c6_calendar_business_keyword_veto (calContacts : List (Nat × List Char))
    (doc_id title : List Char) (content : Option (List Char))
    (h : ∃ keyword ∈ business_keywords,
      containsSub keyword (toLowerL (title ++ ' ' :: optStr content)) = true) :
    linkCalendarDoc calContacts doc_id title content = [] := by
  have hany : business_keywords.any (fun keyword =>
      containsSub keyword (toLowerL (title ++ ' ' :: optStr content))) = true := by
    obtain ⟨kw, hkw, hs⟩ := h
    exact List.any_eq_true.mpr ⟨kw, hkw, hs⟩
  simp [linkCalendarDoc, fuzzy_match_calendar_event, hany]

theorem c6_calendar_business_keyword_veto_witness :
    (∃ keyword ∈ business_keywords,
        containsSub keyword (toLowerL ("Workshop on Q3 planning".data ++
          ' ' :: optStr (some "with Alice Wong and Sam Smith".data))) = true) ∧
      linkCalendarDoc [(1, "Alice Wong".data), (2, "Sam Smith".data)]
        "d4".data "Workshop on Q3 planning".data
        (some "with Alice Wong and Sam Smith".data) = [] :=
  ⟨by decide,
    c6_calendar_business_keyword_veto _ _ _ _ (by decide)⟩

/-- The identity index used in the concrete messaging-linking statements. -/
def c7Idx : IdentityIndex :=
  [(("phone".data, "412345678".data), [(7, mkRat 95 100)])]

/-- C7 counterexample: on an individual-chat document whose phone is in the
index, the one emitted link carries `extraction_method =
"whatsapp_jid_phone"`, not the `"handle_phone"` the claim states. -/
theorem c7_whatsapp_counterexample :
    linkWhatsappDoc c7Idx "d5".data
        (some "61412345678@s.whatsapp.net".data) =
      [{ document_id := "d5".data, kenny_contact_id := 7,
         relationship_type := "sender".data,
         confidence := qmul (mkRat 95 100) (mkRat 9 10),
         extraction_method := "whatsapp_jid_phone".data }] ∧
      "whatsapp_jid_phone".data ≠ "handle_phone".data := by
  constructor
  · decide
  · decide

/-- C7 (amended): group-conversation documents are skipped; otherwise, when
the phone extracted from the handle is non-empty and present in the identity
index, exactly one link is emitted: relationship "sender", confidence =
matched identity confidence × 0.9, extraction method "whatsapp_jid_phone"
(the claim's `"handle_phone"` does not match the source constant). -/
theorem c7_whatsapp_linking (idx : IdentityIndex) (doc_id jid : List Char) :
    (containsSub "@g.us".data jid = true →
      linkWhatsappDoc idx doc_id (some jid) = []) ∧
    (∀ (phone : List Char) (kenny_id : Nat) (confidence : ℚ)
        (rest : List (Nat × ℚ)),
      containsSub "@g.us".data jid = false →
      extract_whatsapp_phone jid = some phone → phone ≠ [] →
      find_contact_by_identity idx "phone".data phone =
        (kenny_id, confidence) :: rest →
      linkWhatsappDoc idx doc_id (some jid) =
        [{ document_id := doc_id, kenny_contact_id := kenny_id,
           relationship_type := "sender".data,
           confidence := qmul confidence (mkRat 9 10),
           extraction_method := "whatsapp_jid_phone".data }]) := by
  constructor
  · intro h
    unfold linkWhatsappDoc
    simp [h]
  · intro phone kenny_id confidence rest hg hext hphone hfind
    unfold linkWhatsappDoc
    dsimp only
    rw [hg]
    simp only [Bool.false_eq_true, if_false]
    rw [hext]
    dsimp only
    rw [if_pos hphone, hfind]

theorem c7_whatsapp_linking_witness :
    (containsSub "@g.us".data "61412345678@s.whatsapp.net".data = false ∧
        extract_whatsapp_phone "61412345678@s.whatsapp.net".data =
          some "412345678".data ∧
        "412345678".data ≠ ([] : List Char) ∧
        find_contact_by_identity c7Idx "phone".data "412345678".data =
          [(7, mkRat 95 100)]) ∧
      linkWhatsappDoc c7Idx "d6".data
          (some "61412345678@s.whatsapp.net".data) =
        [{ document_id := "d6".data, kenny_contact_id := 7,
           relationship_type := "sender".data,
           confidence := qmul (mkRat 95 100) (mkRat 9 10),
           extraction_method := "whatsapp_jid_phone".data }] :=
  ⟨⟨by decide, by decide, by decide, by decide⟩,
    (c7_whatsapp_linking c7Idx "d6".data
        "61412345678@s.whatsapp.net".data).2
      "412345678".data 7 (mkRat 95 100) [] (by decide) (by decide)
      (by decide) (by decide)⟩

end Kenny
